import Mathlib

/-!
Verification development for the Flask-backed Supabase-style client layer:
the chainable query builder, the transport/result-normalization helpers, and
the session-polling auth facade of `src/integrations/supabase/client.ts`,
plus the `wrap` helper of `src/lib/localFlaskClient.ts`.

Machine integers are modelled as `Int`; JSON values as the inductive `JVal`;
the HTTP transport as an explicit function from requests to outcomes; the
polling subscription as a step relation on an explicit state.
-/

namespace FlaskClient

/-- JSON-like runtime values (the dynamic values JavaScript passes around):
null, booleans, numbers, strings, arrays and objects. -/
inductive JVal where
  | null : JVal
  | bool : Bool → JVal
  | num : Int → JVal
  | str : String → JVal
  | arr : List JVal → JVal
  | obj : List (String × JVal) → JVal

/-- JavaScript truthiness of a `JVal`: `null`, `false`, `0` and `""` are
falsy; every array and object is truthy. -/
def truthy : JVal → Bool
  | .null => false
  | .bool b => b
  | .num n => n != 0
  | .str s => s != ""
  | .arr _ => true
  | .obj _ => true

/-- Property access `v.k` on a dynamic value: the field's value when `v` is
an object with that field, otherwise the falsy absent value (JavaScript
`undefined`, collapsed onto `JVal.null` — both are falsy and the source only
tests truthiness). -/
def getField (v : JVal) (k : String) : JVal :=
  match v with
  | .obj fields =>
    match fields.find? (fun kv => kv.1 == k) with
    | some kv => kv.2
    | none => .null
  | _ => .null

/-- The `(data, error)` result shape both clients resolve to. A JavaScript
`null` component is `JVal.null`. -/
structure RResult where
  data : JVal
  error : JVal

/-- Outcome of one `fetch` call: either the promise rejects with an
exception-like value (transport failure, no response), or a response arrives
with an ok-flag, a content-type that is or is not JSON, the parsed JSON body,
the text body, and a status text. -/
inductive FetchOutcome where
  | reject : JVal → FetchOutcome
  | resp : Bool → Bool → JVal → String → String → FetchOutcome

/-- Error value computed by `api` for a non-ok response (client.ts line 29):
`(data && (data.error || data)) || res.statusText` under JavaScript
truthiness. -/
def apiErrorVal (data : JVal) (statusText : String) : JVal :=
  if truthy data then
    if truthy (getField data "error") then getField data "error" else data
  else .str statusText

/-- The `api` helper of client.ts (lines 17-32): awaits `fetch` with no
surrounding try/catch, so a rejected fetch propagates as `Except.error`
(a thrown exception). On a response, the body is the parsed JSON when the
content type is JSON, else the raw text; an ok response yields
`(data, null)`, a non-ok response yields `(null, apiErrorVal ...)`. -/
def api : FetchOutcome → Except JVal RResult
  | .reject e => .error e
  | .resp ok isJson body textBody statusText =>
    let data := if isJson then body else .str textBody
    if ok then .ok ⟨data, .null⟩
    else .ok ⟨.null, apiErrorVal data statusText⟩

/-- The `wrap` helper of localFlaskClient.ts (lines 5-8): the promise of the
parsed body either fulfills with `j` — mapped to `(null, j)` when `j?.error`
is truthy, else `(j, null)` — or rejects with `e`, which the trailing
`.catch` converts to `(null, e)`. -/
def wrap : Except JVal JVal → RResult
  | .error e => ⟨.null, e⟩
  | .ok j => if truthy (getField j "error") then ⟨.null, j⟩ else ⟨j, .null⟩

/-- The HTTP method field of the builder state (client.ts line 40). -/
inductive HttpMethod where
  | GET : HttpMethod
  | POST : HttpMethod
  | PATCH : HttpMethod
  | DELETE : HttpMethod
deriving DecidableEq, Repr

/-- The mutable closure state of one query-builder instance
(client.ts lines 35-49). Filters keep JavaScript object-key insertion order;
a repeated key overwrites in place. Filter values are stored after the
`String(v)` conversion applied at serialization time. -/
structure QueryState where
  filters : List (String × String)
  order : Option (String × Bool)
  range : Option (Int × Int)
  limit : Option Int
  method : HttpMethod
  payload : JVal

/-- The initial state of a fresh builder (client.ts lines 42-49). -/
def initState : QueryState :=
  { filters := [], order := none, range := none, limit := none,
    method := .GET, payload := .null }

/-- JavaScript object-property assignment `state.filters[column] = value`:
overwrite in place when the key exists, else append. -/
def setFilter : List (String × String) → String → String → List (String × String)
  | [], c, v => [(c, v)]
  | kv :: rest, c, v =>
    if kv.1 = c then (c, v) :: rest else kv :: setFilter rest c v

/-- One chainable (non-terminal) builder call. `order`'s optional
`ascending` flag is `none` when the options object or the flag is absent. -/
inductive BuilderOp where
  | select : BuilderOp
  | order : String → Option Bool → BuilderOp
  | range : Int → Int → BuilderOp
  | limit : Int → BuilderOp
  | eq : String → String → BuilderOp
  | insert : JVal → BuilderOp
  | update : JVal → BuilderOp

/-- Effect of one chainable call on the builder state (client.ts
lines 82-114): `select` is a no-op; `order` stores the sole sort key with
`ascending ?? true`; `range` and `limit` store their bounds; `eq` assigns
the filter map; `insert`/`update` set the method and payload. -/
def applyOp (s : QueryState) : BuilderOp → QueryState
  | .select => s
  | .order c asc => { s with order := some (c, asc.getD true) }
  | .range a b => { s with range := some (a, b) }
  | .limit n => { s with limit := some n }
  | .eq c v => { s with filters := setFilter s.filters c v }
  | .insert p => { s with method := .POST, payload := p }
  | .update p => { s with method := .PATCH, payload := p }

/-- State after a whole chain of calls, applied left to right in caller
order. -/
def applyOps (s : QueryState) : List BuilderOp → QueryState
  | [] => s
  | op :: rest => applyOps (applyOp s op) rest

/-- The `order` query parameter emitted by `buildQS`
(client.ts line 54). -/
def orderParams (s : QueryState) : List (String × String) :=
  match s.order with
  | some oc => [("order", oc.1 ++ "." ++ (if oc.2 then "asc" else "desc"))]
  | none => []

/-- The pagination parameters emitted by `buildQS` (client.ts lines 55-61):
an explicit range wins; otherwise a set limit emits
`from=0, to=max 0 (limit-1)`; otherwise nothing. -/
def paginationParams (s : QueryState) : List (String × String) :=
  match s.range with
  | some ab => [("from", toString ab.1), ("to", toString ab.2)]
  | none =>
    match s.limit with
    | some n => [("from", "0"), ("to", toString (max 0 (n - 1)))]
    | none => []

/-- The full query-parameter list built by `buildQS` (client.ts
lines 51-64): one `eq.<column>` parameter per filter, then the order
parameter, then the pagination pair. -/
def buildQS (s : QueryState) : List (String × String) :=
  (s.filters.map (fun kv => ("eq." ++ kv.1, kv.2))) ++ orderParams s ++ paginationParams s

/-- Rendering of the parameter list into the query-string suffix:
empty input yields the empty suffix, otherwise a leading question mark. -/
def renderQS (ps : List (String × String)) : String :=
  match ps with
  | [] => ""
  | _ => "?" ++ String.intercalate "&" (ps.map (fun kv => kv.1 ++ "=" ++ kv.2))

/-- One serialized network request: the `/db/<table>` url with query string,
the HTTP method, and the JSON body sent for POST/PATCH (client.ts
lines 66-78 — GET and DELETE carry no body). -/
structure Request where
  url : String
  method : HttpMethod
  body : Option JVal

/-- The request `run()` serializes from the current builder state
(client.ts lines 66-78). -/
def mkRequest (table : String) (s : QueryState) : Request :=
  { url := "/db/" ++ table ++ renderQS (buildQS s),
    method := s.method,
    body :=
      match s.method with
      | .POST => some s.payload
      | .PATCH => some s.payload
      | _ => none }

/-- One invocation of `run()` (client.ts lines 66-78): serialize the state
into a request, issue it through the transport, normalize through `api`,
and record the issued request in the log of network requests. -/
def runQuery (table : String) (s : QueryState) (transport : Request → FetchOutcome)
    (log : List Request) : Except JVal RResult × List Request :=
  (api (transport (mkRequest table s)), log ++ [mkRequest table s])

/-- Resolving the chain's terminal twice on the same builder instance: each
invocation of `then` calls `run()` afresh (client.ts lines 144-146), so the
second resolution issues a second request. Returns both resolutions and the
accumulated request log. -/
def resolveTwice (table : String) (s : QueryState) (transport : Request → FetchOutcome) :
    Except JVal RResult × Except JVal RResult × List Request :=
  ((runQuery table s transport []).1,
   (runQuery table s transport (runQuery table s transport []).2).1,
   (runQuery table s transport (runQuery table s transport []).2).2)

/-- Post-processing `single()` applies to the awaited `run()` result
(client.ts lines 126-133): a truthy error passes through unchanged; an
array data value is replaced by its first element with `undefined`
collapsed to null via `?? null`; anything else passes through. -/
def singleTransform (res : RResult) : RResult :=
  if truthy res.error then res
  else
    match res.data with
    | .arr xs => ⟨xs.headD .null, .null⟩
    | _ => res

/-- Post-processing `maybeSingle()` applies to the awaited `run()` result
(client.ts lines 134-141). -/
def maybeSingleTransform (res : RResult) : RResult :=
  if truthy res.error then res
  else
    match res.data with
    | .arr xs => ⟨xs.headD .null, .null⟩
    | _ => res

/-- The `single()` terminal: awaits `run()` — a rejection propagates — and
applies its post-processing to a fulfilled result. -/
def singleTerminal (table : String) (s : QueryState)
    (transport : Request → FetchOutcome) : Except JVal RResult :=
  (runQuery table s transport []).1.map singleTransform

/-- The `maybeSingle()` terminal, identically structured. -/
def maybeSingleTerminal (table : String) (s : QueryState)
    (transport : Request → FetchOutcome) : Except JVal RResult :=
  (runQuery table s transport []).1.map maybeSingleTransform

/-- True when the chain never calls `range`. -/
def rangeFree : List BuilderOp → Bool
  | [] => true
  | .range _ _ :: _ => false
  | _ :: rest => rangeFree rest

/-- The user object carried by a session, identified by its id. -/
structure User where
  id : String
deriving DecidableEq, Repr

/-- `JSON.stringify` of a session value as the poll compares it
(client.ts lines 172 and 176): `null` serializes to the string `null`,
and a session object to its canonical JSON text. -/
def stringifySession : Option User → String
  | none => "null"
  | some u => "\x7b\"user\":\x7b\"id\":\"" ++ u.id ++ "\"\x7d\x7d"

/-- Event tag passed to callbacks on a detected change
(client.ts line 180): a truthy (non-null) new session is `SIGNED_IN`,
null is `SIGNED_OUT`. -/
def eventTag : Option User → String
  | some _ => "SIGNED_IN"
  | none => "SIGNED_OUT"

/-- Observable state of one `onAuthStateChange` subscription
(client.ts lines 171-184). `last` is the stringified last-observed session
held by the interval closure; `subscribed` records whether the interval
timer is still armed; `inFlight` holds the response of a poll whose fetch
has started but whose async continuation has not yet run; `cached` models
the process-wide `__currentSession`; `notifications` is the ordered list of
`(event, session)` invocations of the registered callback. -/
structure PollState where
  last : String
  subscribed : Bool
  inFlight : Option (Option User)
  cached : Option User
  notifications : List (String × Option User)
deriving DecidableEq, Repr

/-- Registering a callback (client.ts lines 171-173): `last` starts as
`JSON.stringify(__currentSession || null)`, the interval timer is armed,
no poll is in flight and no notification has fired. -/
def onAuthStateChange (current : Option User) : PollState :=
  { last := stringifySession current, subscribed := true, inFlight := none,
    cached := current, notifications := [] }

/-- Events of the subscription model. `tickStart r` is the interval timer
firing and its fetch starting (to complete with session response `r`);
`tickComplete` is the async continuation after `await api(...)` running;
`unsubscribe` is `clearInterval(timer)`. -/
inductive PollEv where
  | tickStart : Option User → PollEv
  | tickComplete : PollEv
  | unsubscribe : PollEv
deriving Repr

/-- One step of the subscription model, faithful to client.ts
lines 173-183: the timer fires only while armed; `clearInterval` only
disarms the timer and does not cancel the already-started continuation;
when the continuation runs it compares `JSON.stringify(next)` to `last`
and, on a difference, updates `last` and `__currentSession` and invokes
the callback — whether or not the timer has been cleared meanwhile. -/
def step (st : PollState) : PollEv → PollState
  | .tickStart r =>
    if st.subscribed then { st with inFlight := some r } else st
  | .unsubscribe => { st with subscribed := false }
  | .tickComplete =>
    match st.inFlight with
    | none => st
    | some r =>
      if stringifySession r ≠ st.last then
        { st with inFlight := none, last := stringifySession r, cached := r,
                  notifications := st.notifications ++ [(eventTag r, r)] }
      else { st with inFlight := none }

/-- A whole undisturbed poll tick: the timer fires and its continuation
runs to completion before anything else happens. -/
def pollTick (st : PollState) (r : Option User) : PollState :=
  step (step st (.tickStart r)) .tickComplete

/-- Successive undisturbed poll ticks over a list of session-endpoint
responses. -/
def pollSeq (st : PollState) : List (Option User) → PollState
  | [] => st
  | r :: rs => pollSeq (pollTick st r) rs

/-- `signInWithPassword` (client.ts lines 185-189) as a function of the
normalized response `res` and the current cached session: when `res.error`
is falsy it assigns `__currentSession = \x7buser: res.data.user\x7d` and
resolves `(\x7buser: res.data.user\x7d, null)`; otherwise it resolves
`(null, res.error)` and leaves the cache alone. Returns the resolved value
and the new cached session. -/
def signInWithPassword (res : RResult) (current : JVal) : RResult × JVal :=
  if truthy res.error then (⟨.null, res.error⟩, current)
  else (⟨.obj [("user", getField res.data "user")], .null⟩,
        .obj [("user", getField res.data "user")])

/-- `signUp` (client.ts lines 190-193) as a function of the normalized
response and the current cached session: it resolves exactly like
`signInWithPassword` but contains no assignment to `__currentSession`, so
the cached session is returned unchanged in every case. -/
def signUp (res : RResult) (current : JVal) : RResult × JVal :=
  if truthy res.error then (⟨.null, res.error⟩, current)
  else (⟨.obj [("user", getField res.data "user")], .null⟩, current)

/-- A concrete CREATE chain, `.insert(payload).select()`, ready for its
terminal resolution. -/
def createChain : QueryState :=
  applyOps initState
    [BuilderOp.insert (JVal.obj [("name", JVal.str "x")]), BuilderOp.select]

/-- A concrete transport that always answers with an ok JSON response
whose body is the empty array. -/
def okEmptyTransport : Request → FetchOutcome :=
  fun _ => FetchOutcome.resp true true (JVal.arr []) "" "OK"

/-- The normalized success response of a sign-in or sign-up request whose
body carries the user `u1`. -/
def okUserRes : RResult :=
  ⟨JVal.obj [("user", JVal.obj [("id", JVal.str "u1")])], JVal.null⟩

/-! Helper lemmas shared by several of the theorems below. -/

/-- A chain that never calls `range` leaves the state's range field
untouched. -/
theorem applyOps_range_of_rangeFree (ops : List BuilderOp) (s : QueryState)
    (h : rangeFree ops = true) : (applyOps s ops).range = s.range := by
  induction ops generalizing s with
  | nil => rfl
  | cons op rest ih =>
    cases op <;> simp only [rangeFree] at h <;> first
      | (simp only [applyOps, applyOp]; rw [ih _ h])
      | exact absurd h (by simp)

/-- Claim C5: for every chain that calls both `range(a,b)` and `limit(n)`,
in either call order, the serialized pagination bounds are `from=a` and
`to=b` — range supersedes limit regardless of call order. Quantifying over
the starting state `s` covers any prefix of other chained calls. -/
theorem C5_range_supersedes_limit (s : QueryState) (a b n : Int) :
    paginationParams (applyOps s [BuilderOp.range a b, BuilderOp.limit n]) =
      [("from", toString a), ("to", toString b)] ∧
    paginationParams (applyOps s [BuilderOp.limit n, BuilderOp.range a b]) =
      [("from", toString a), ("to", toString b)] :=
  ⟨rfl, rfl⟩

/-- Claim C4, counterexample: the chain `limit(0)` — a non-negative
argument — serializes the bounds `from=0, to=0`, not `to = 0 - 1 = -1` as
the claim requires for every non-negative n. -/
theorem C4_counterexample :
    paginationParams (applyOps initState [BuilderOp.limit 0]) =
      [("from", "0"), ("to", "0")] ∧
    ("0" : String) ≠ toString ((0 : Int) - 1) := by
  constructor
  · rfl
  · decide

/-- Claim C4 as amended: for every chain that calls `limit(n)` with a
positive n and never calls `range`, the serialized bounds are `from=0` and
`to=n-1`; at `n = 0` the emitted upper bound is clamped to 0 instead. -/
theorem C4_limit_amended (ops : List BuilderOp) (n : Int)
    (h1 : rangeFree ops = true) (h2 : (applyOps initState ops).limit = some n)
    (h3 : 0 < n) :
    paginationParams (applyOps initState ops) =
      [("from", "0"), ("to", toString (n - 1))] := by
  have hr : (applyOps initState ops).range = none :=
    applyOps_range_of_rangeFree ops initState h1
  have hm : max 0 (n - 1) = n - 1 := max_eq_right (by omega)
  simp [paginationParams, hr, h2, hm]

/-- Witness for C4_limit_amended at the chain `[limit 3]`. -/
theorem C4_limit_amended_witness :
    paginationParams (applyOps initState [BuilderOp.limit 3]) =
      [("from", "0"), ("to", toString ((3 : Int) - 1))] :=
  C4_limit_amended [BuilderOp.limit 3] 3 rfl rfl (by decide)

/-- Claim C10: for every chain calling `limit(n)` without `range`, the
emitted upper bound is clamped at 0 — it equals `max 0 (n-1)` — so
`limit(0)` emits the one-row window `from=0, to=0`. -/
theorem C10_limit_clamped (ops : List BuilderOp) (n : Int)
    (h1 : rangeFree ops = true) (h2 : (applyOps initState ops).limit = some n) :
    paginationParams (applyOps initState ops) =
      [("from", "0"), ("to", toString (max 0 (n - 1)))] ∧
    paginationParams (applyOps initState [BuilderOp.limit 0]) =
      [("from", "0"), ("to", "0")] := by
  have hr : (applyOps initState ops).range = none :=
    applyOps_range_of_rangeFree ops initState h1
  constructor
  · simp [paginationParams, hr, h2]
  · rfl

/-- Witness for C10_limit_clamped at the chain `[limit 0]`. -/
theorem C10_limit_clamped_witness :
    paginationParams (applyOps initState [BuilderOp.limit 0]) =
      [("from", "0"), ("to", toString (max 0 ((0 : Int) - 1)))] ∧
    paginationParams (applyOps initState [BuilderOp.limit 0]) =
      [("from", "0"), ("to", "0")] :=
  C10_limit_clamped [BuilderOp.limit 0] 0 rfl rfl

/-- Claim C8: `single()` on a READ whose raw response body is the empty
array resolves to `(null, null)`, and on a non-empty array body resolves
to its first element with a null error. -/
theorem C8_single_read (table : String) (s : QueryState) (x : JVal)
    (xs : List JVal) (h : s.method = HttpMethod.GET) :
    singleTerminal table s
        (fun _ => FetchOutcome.resp true true (JVal.arr []) "" "OK") =
      Except.ok ⟨JVal.null, JVal.null⟩ ∧
    singleTerminal table s
        (fun _ => FetchOutcome.resp true true (JVal.arr (x :: xs)) "" "OK") =
      Except.ok ⟨x, JVal.null⟩ :=
  ⟨rfl, rfl⟩

/-- Witness for C8_single_read on the table `profiles` with the row
`(id, "a")`. -/
theorem C8_single_read_witness :
    initState.method = HttpMethod.GET ∧
    (singleTerminal "profiles" initState
        (fun _ => FetchOutcome.resp true true (JVal.arr []) "" "OK") =
      Except.ok ⟨JVal.null, JVal.null⟩ ∧
    singleTerminal "profiles" initState
        (fun _ => FetchOutcome.resp true true
          (JVal.arr (JVal.obj [("id", JVal.str "a")] :: [])) "" "OK") =
      Except.ok ⟨JVal.obj [("id", JVal.str "a")], JVal.null⟩) :=
  ⟨rfl, C8_single_read "profiles" initState (JVal.obj [("id", JVal.str "a")]) [] rfl⟩

/-- Claim C9: for every chain state and every transport, the `single()`
and `maybeSingle()` terminals resolve to the same result value — the two
are behaviorally identical. -/
theorem C9_maybeSingle_eq_single (table : String) (s : QueryState)
    (transport : Request → FetchOutcome) :
    maybeSingleTerminal table s transport = singleTerminal table s transport :=
  rfl

/-- Claim C1, counterexample: on a CREATE chain (insert was called, so the
method is POST), resolving the terminal twice on the same builder instance
issues two network requests, not the single memoized request the claim
demands — `then` re-invokes `run()` on every resolution. -/
theorem C1_counterexample :
    createChain.method = HttpMethod.POST ∧
    (resolveTwice "items" createChain okEmptyTransport).2.2.length = 2 :=
  ⟨rfl, rfl⟩

/-- Claim C1 as amended: on a CREATE chain, each terminal resolution
issues its own network request — resolving twice issues exactly two — and,
the transport being a deterministic function of the request, both
resolutions yield identical result values. -/
theorem C1_resolve_twice_amended (table : String) (s : QueryState)
    (transport : Request → FetchOutcome) (h : s.method = HttpMethod.POST) :
    (resolveTwice table s transport).2.2.length = 2 ∧
    (resolveTwice table s transport).1 = (resolveTwice table s transport).2.1 :=
  ⟨rfl, rfl⟩

/-- Witness for C1_resolve_twice_amended on the concrete CREATE chain. -/
theorem C1_resolve_twice_amended_witness :
    createChain.method = HttpMethod.POST ∧
    ((resolveTwice "items" createChain okEmptyTransport).2.2.length = 2 ∧
    (resolveTwice "items" createChain okEmptyTransport).1 =
      (resolveTwice "items" createChain okEmptyTransport).2.1) :=
  ⟨rfl, C1_resolve_twice_amended "items" createChain okEmptyTransport rfl⟩

/-- Claim C2, counterexample: a query-builder execution over a transport
that rejects (network failure, no response) propagates the rejection as a
thrown exception — `api` has no catch — instead of resolving to
`(null, error)` as the claim demands. -/
theorem C2_counterexample :
    (runQuery "profiles" initState
        (fun _ => FetchOutcome.reject (JVal.str "offline")) []).1 =
      Except.error (JVal.str "offline") ∧
    (Except.error (JVal.str "offline") :
        Except JVal RResult) ≠ Except.ok ⟨JVal.null, JVal.str "offline"⟩ :=
  ⟨rfl, fun h => Except.noConfusion h⟩

/-- Claim C2 as amended: the localFlaskClient's `wrap` helper converts a
transport rejection into the resolved value `(null, e)` and never lets it
propagate; the supabase-style client's `api` helper — and hence every
builder execution through it — propagates a transport rejection to the
caller as a thrown exception. -/
theorem C2_transport_amended (e : JVal) (table : String) (s : QueryState) :
    wrap (Except.error e) = ⟨JVal.null, e⟩ ∧
    (runQuery table s (fun _ => FetchOutcome.reject e) []).1 =
      Except.error e :=
  ⟨rfl, rfl⟩

/-- Claim C3, counterexample: a poll tick is in flight when `unsubscribe`
runs; no notification has fired by the time `unsubscribe` returns, yet
when the in-flight continuation completes it still notifies the removed
callback — `clearInterval` does not cancel the started continuation. -/
theorem C3_counterexample :
    (step (step (onAuthStateChange none)
        (PollEv.tickStart (some ⟨"u1"⟩))) PollEv.unsubscribe).notifications =
      [] ∧
    (step (step (step (onAuthStateChange none)
        (PollEv.tickStart (some ⟨"u1"⟩))) PollEv.unsubscribe)
        PollEv.tickComplete).notifications =
      [("SIGNED_IN", some ⟨"u1"⟩)] := by
  constructor <;> decide

/-- Claim C3 as amended: after `unsubscribe` returns no NEW poll tick can
start (the timer event is a no-op on an unsubscribed state, so no further
notification originates from new ticks), but a poll already in flight when
`unsubscribe` was called may still notify the removed callback when it
completes. -/
theorem C3_unsubscribe_amended (st : PollState) (r : Option User)
    (h : st.subscribed = false) :
    step st (PollEv.tickStart r) = st ∧
    (step st PollEv.unsubscribe).subscribed = false := by
  constructor
  · simp [step, h]
  · rfl

/-- Witness for C3_unsubscribe_amended on the freshly unsubscribed
state. -/
theorem C3_unsubscribe_amended_witness :
    (step (onAuthStateChange none) PollEv.unsubscribe).subscribed = false ∧
    step (step (onAuthStateChange none) PollEv.unsubscribe)
        (PollEv.tickStart (some ⟨"u1"⟩)) =
      step (onAuthStateChange none) PollEv.unsubscribe :=
  ⟨rfl, (C3_unsubscribe_amended (step (onAuthStateChange none) PollEv.unsubscribe)
    (some ⟨"u1"⟩) rfl).1⟩

/-- Claim C6: polling the session-endpoint responses
`[null, u1-session, u1-session, null]` on four successive ticks from a
subscription registered while signed out fires exactly two notifications,
`SIGNED_IN` with the new session then `SIGNED_OUT` with null; the repeated
structurally-equal session fires none. -/
theorem C6_poll_sequence :
    (pollSeq (onAuthStateChange none)
        [none, some ⟨"u1"⟩, some ⟨"u1"⟩, none]).notifications =
      [("SIGNED_IN", some ⟨"u1"⟩), ("SIGNED_OUT", none)] := by
  decide

/-- Claim C7, counterexample: on the successful response carrying user u1
and a signed-out cache, `signUp` leaves the cached session null — it
contains no cache assignment — while `signInWithPassword` sets it to the
new session, so the claim that both update the cache immediately fails. -/
theorem C7_counterexample :
    (signUp okUserRes JVal.null).2 = JVal.null ∧
    (signInWithPassword okUserRes JVal.null).2 =
      JVal.obj [("user", JVal.obj [("id", JVal.str "u1")])] ∧
    JVal.null ≠ JVal.obj [("user", JVal.obj [("id", JVal.str "u1")])] :=
  ⟨rfl, rfl, fun h => JVal.noConfusion h⟩

/-- Claim C7 as amended: on a successful response, `signInWithPassword`
updates the process-wide cached session immediately and resolves with the
resulting user, while `signUp` resolves with the resulting user but leaves
the cached session unchanged. -/
theorem C7_signin_amended (res : RResult) (current : JVal)
    (h : truthy res.error = false) :
    signInWithPassword res current =
      (⟨JVal.obj [("user", getField res.data "user")], JVal.null⟩,
       JVal.obj [("user", getField res.data "user")]) ∧
    (signUp res current).1 =
      ⟨JVal.obj [("user", getField res.data "user")], JVal.null⟩ ∧
    (signUp res current).2 = current := by
  refine ⟨?_, ?_, ?_⟩ <;> simp [signInWithPassword, signUp, h]

/-- Witness for C7_signin_amended on the successful u1 response and a
signed-out cache. -/
theorem C7_signin_amended_witness :
    signInWithPassword okUserRes JVal.null =
      (⟨JVal.obj [("user", getField okUserRes.data "user")], JVal.null⟩,
       JVal.obj [("user", getField okUserRes.data "user")]) ∧
    (signUp okUserRes JVal.null).1 =
      ⟨JVal.obj [("user", getField okUserRes.data "user")], JVal.null⟩ ∧
    (signUp okUserRes JVal.null).2 = JVal.null :=
  C7_signin_amended okUserRes JVal.null rfl

end FlaskClient
